import Mathlib

/-!
A shallow embedding of the Amana Bookstore Express API (src/server.js) in Lean 4.

Modelling conventions:
* JavaScript numbers appearing in the data (price, rating, reviewCount) are
  modelled as `Rat`; none of the verified routes performs an operation on them
  whose rational and floating-point results differ in the properties at stake
  (truthiness of 0, products, order comparisons).
* A JSON request body is modelled by a structure whose fields are `Option`s:
  `none` is an absent (undefined) field.  JS truthiness of a possibly-absent
  string or number field is `truthyStr` / `truthyNum`.
* `new Date(s)` in the handlers is only ever compared for order.  `parseDate`
  parses the documented YYYY-MM-DD format (as V8 parses date-only ISO strings,
  rejecting out-of-range months/days) and returns the order-preserving key
  y*10000 + m*100 + d, so every comparison between successfully parsed dates
  has the same outcome as comparing the `Date` timestamps.
* The nondeterministic inputs of the POST handlers (the current date used for
  the `datePublished` default, the current instant used for `timestamp`, the
  generated UUID) are explicit parameters.
* Each handler is a pure function from its inputs and the parsed content of
  the JSON file to a result; handlers that write the file also return the new
  file content, so "the file is unchanged" is "the returned list equals the
  input list".
-/

/-- A book record as stored in `books.json`. -/
structure Book where
  id : String
  title : String
  author : String
  price : Rat
  rating : Rat
  reviewCount : Rat
  inStock : Bool
  featured : Bool
  datePublished : String
deriving Repr, DecidableEq

/-- A review record as stored in `reviews.json`. -/
structure Review where
  id : String
  bookId : String
  author : String
  rating : Rat
  comment : String
  timestamp : String
  verified : Bool
deriving Repr, DecidableEq

/-- The request body of `POST /api/books`: the fields the API documents for
book creation, each possibly absent. -/
structure NewBook where
  title : Option String
  author : Option String
  price : Option Rat
  rating : Option Rat
  reviewCount : Option Rat
  inStock : Option Bool
  featured : Option Bool
  datePublished : Option String
deriving Repr, DecidableEq

/-- The request body of `POST /api/reviews`. -/
structure NewReview where
  bookId : Option String
  author : Option String
  rating : Option Rat
  comment : Option String
  verified : Option Bool
deriving Repr, DecidableEq

/-- JS truthiness of a possibly-absent string field: `undefined` and `""` are
falsy. -/
def truthyStr : Option String → Bool
  | none => false
  | some s => s != ""

/-- JS truthiness of a possibly-absent numeric field: `undefined` and `0` are
falsy. -/
def truthyNum : Option Rat → Bool
  | none => false
  | some r => r != 0

/-- JS `x || d` for a possibly-absent numeric field `x`. -/
def jsNumOr (x : Option Rat) (d : Rat) : Rat :=
  match x with
  | none => d
  | some r => if r != 0 then r else d

/-- The longest digit prefix of `cs` read as a decimal `Nat`; `none` when `cs`
does not start with a digit (JS `parseInt` gives `NaN` there). -/
def parseLeadingDigits (cs : List Char) : Option Nat :=
  match cs.takeWhile Char.isDigit with
  | [] => none
  | ds => some (ds.foldl (fun a c => a * 10 + (c.toNat - 48)) 0)

/-- JS `parseInt(s)` (radix 10, no surrounding whitespace): an optional sign
followed by a digit prefix; `none` models `NaN`. -/
def jsParseInt (s : String) : Option Int :=
  match s.data with
  | [] => none
  | c :: cs =>
    if c = '-' then (parseLeadingDigits cs).map (fun n => -(n : Int))
    else if c = '+' then (parseLeadingDigits cs).map (fun n => (n : Int))
    else (parseLeadingDigits (c :: cs)).map (fun n => (n : Int))

/-- The decimal digits of `n`, most significant first. -/
def natToDigits (n : Nat) : List Char :=
  if _hlt : n < 10 then [Nat.digitChar n]
  else natToDigits (n / 10) ++ [Nat.digitChar (n % 10)]
decreasing_by exact Nat.div_lt_self (by omega) (by omega)

/-- JS `Number.prototype.toString` restricted to integers: canonical decimal
notation, `-` sign for negatives. -/
def intToString (i : Int) : String :=
  if i < 0 then String.mk ('-' :: natToDigits i.natAbs)
  else String.mk (natToDigits i.natAbs)

/-- Gregorian leap-year test. -/
def isLeap (y : Nat) : Bool := (y % 4 == 0 && y % 100 != 0) || y % 400 == 0

/-- Number of days of month `m` of year `y`. -/
def daysInMonth (y m : Nat) : Nat :=
  if m = 2 then (if isLeap y then 29 else 28)
  else if m = 4 ∨ m = 6 ∨ m = 9 ∨ m = 11 then 30
  else 31

/-- The numeric value of a digit character. -/
def digitVal (c : Char) : Nat := c.toNat - 48

/-- JS `new Date(s)` on a date-only string, reduced to what the handlers use
of it (order): parses the documented `YYYY-MM-DD` format, checking that month
and day are in calendar range as V8 does for ISO date strings, and returns the
order-preserving key `y*10000 + m*100 + d`; `none` models an invalid date. -/
def parseDate (s : String) : Option Nat :=
  match s.data with
  | [y1, y2, y3, y4, h1, m1, m2, h2, d1, d2] =>
    if h1 = '-' ∧ h2 = '-' ∧ y1.isDigit ∧ y2.isDigit ∧ y3.isDigit ∧ y4.isDigit ∧
        m1.isDigit ∧ m2.isDigit ∧ d1.isDigit ∧ d2.isDigit then
      let y := digitVal y1 * 1000 + digitVal y2 * 100 + digitVal y3 * 10 + digitVal y4
      let m := digitVal m1 * 10 + digitVal m2
      let d := digitVal d1 * 10 + digitVal d2
      if 1 ≤ m ∧ m ≤ 12 ∧ 1 ≤ d ∧ d ≤ daysInMonth y m then
        some (y * 10000 + m * 100 + d)
      else none
    else none
  | _ => none

/-- The hard-coded key list of the authentication middleware. -/
def VALID_API_KEYS : List String := ["amana-secret-key-12345"]

/-- The `authenticateKey` middleware test: the `X-API-Key` header is present,
truthy and a member of `VALID_API_KEYS`. -/
def authOk (key? : Option String) : Bool :=
  truthyStr key? && VALID_API_KEYS.contains (key?.getD "")

/-- The filter predicate of the date-range handler: `new Date(book.datePublished)`
compared against the parsed bounds (an invalid stored date compares false). -/
def publishedInRange (s e : Nat) (b : Book) : Bool :=
  match parseDate b.datePublished with
  | some t => decide (s ≤ t) && decide (t ≤ e)
  | none => false

/-- Result of `GET /api/books/date-range`. -/
inductive DRResult where
  | missingParams
  | invalidFormat
  | invalidRange
  | ok (count : Nat) (range : String × String) (data : List Book)
deriving Repr, DecidableEq

/-- HTTP status of a `DRResult`. -/
def DRResult.status : DRResult → Nat
  | .ok .. => 200
  | _ => 400

/-- Handler of `GET /api/books/date-range` (src/server.js lines 96-153). -/
def getBooksByDateRange (start? end? : Option String) (books : List Book) : DRResult :=
  if !truthyStr start? || !truthyStr end? then .missingParams
  else
    let sStr := start?.getD ""
    let eStr := end?.getD ""
    match parseDate sStr, parseDate eStr with
    | some s, some e =>
      if e < s then .invalidRange
      else
        let filteredBooks := books.filter (publishedInRange s e)
        .ok filteredBooks.length (sStr, eStr) filteredBooks
    | _, _ => .invalidFormat

/-- A book together with the `score` field the top-rated handler adds to the
response object; the score is not part of the stored record. -/
structure ScoredBook where
  book : Book
  score : Rat
deriving Repr, DecidableEq

/-- The sort order of the comparator `(a, b) => b.score - a.score`: `a` comes
no later than `b` exactly when `b.score ≤ a.score`. -/
def scoreDesc (a b : ScoredBook) : Bool := decide (b.score ≤ a.score)

/-- Handler of `GET /api/books/top-rated` (src/server.js lines 179-205): maps
each book to a scored copy, sorts descending by score with a stable sort (as
`Array.prototype.sort` with comparator `(a, b) => b.score - a.score`), takes
the first 10.  The handler does not write `books.json`; it returns the file
content unchanged. -/
def getTopRatedBooks (books : List Book) : List ScoredBook × List Book :=
  let scored := books.map (fun b => { book := b, score := b.rating * b.reviewCount : ScoredBook })
  let sorted := scored.mergeSort scoreDesc
  (sorted.take 10, books)

/-- Result of `GET /api/books/:id`. -/
inductive BookByIdResult where
  | notFound (id : String)
  | found (b : Book)
deriving Repr, DecidableEq

/-- HTTP status of a `BookByIdResult`. -/
def BookByIdResult.status : BookByIdResult → Nat
  | .notFound _ => 404
  | .found _ => 200

/-- Handler of `GET /api/books/:id` (src/server.js lines 209-235). -/
def getBookById (id : String) (books : List Book) : BookByIdResult :=
  match books.find? (fun b => b.id == id) with
  | none => .notFound id
  | some b => .found b

/-- Response of `GET /api/reviews/book/:bookId`. -/
structure ReviewsResponse where
  status : Nat
  success : Bool
  count : Nat
  data : List Review
deriving Repr, DecidableEq

/-- Handler of `GET /api/reviews/book/:bookId` (src/server.js lines 238-270). -/
def getReviewsForBook (bookId : String) (reviews : List Review) : ReviewsResponse :=
  let bookReviews := reviews.filter (fun r => r.bookId == bookId)
  if bookReviews.isEmpty then
    { status := 200, success := true, count := 0, data := [] }
  else
    { status := 200, success := true, count := bookReviews.length, data := bookReviews }

/-- JS `Math.max(...books.map(b => parseInt(b.id)))`: `NaN` (modelled `none`)
if any id fails to parse, `-Infinity` on the empty list, else the maximum. -/
def maxParsedId (books : List Book) : Option Int :=
  match books.filterMap (fun b => jsParseInt b.id) with
  | [] => none
  | a :: as => some (as.foldl max a)

/-- The id the book-creation handler assigns:
`(Math.max(...books.map(b => parseInt(b.id))) + 1).toString()`. -/
def newBookId (books : List Book) : String :=
  if books.any (fun b => (jsParseInt b.id).isNone) then "NaN"
  else
    match maxParsedId books with
    | some m => intToString (m + 1)
    | none => "-Infinity"

/-- Result of `POST /api/books`. -/
inductive PostBookResult where
  | unauthorized
  | missingFields
  | created (b : Book)
deriving Repr, DecidableEq

/-- HTTP status of a `PostBookResult`. -/
def PostBookResult.status : PostBookResult → Nat
  | .unauthorized => 401
  | .missingFields => 400
  | .created _ => 201

/-- Handler of `POST /api/books` (src/server.js lines 276-320), composed with
the `authenticateKey` middleware.  `today` is the current date string used for
the `datePublished` default.  Returns the response and the new content of
`books.json`. -/
def postBooks (today : String) (key? : Option String) (body : NewBook)
    (books : List Book) : PostBookResult × List Book :=
  if !authOk key? then (.unauthorized, books)
  else if !truthyStr body.title || !truthyStr body.author || !truthyNum body.price then
    (.missingFields, books)
  else
    let bookToAdd : Book :=
      { id := newBookId books
        title := body.title.getD ""
        author := body.author.getD ""
        price := body.price.getD 0
        rating := jsNumOr body.rating 0
        reviewCount := jsNumOr body.reviewCount 0
        inStock := body.inStock.getD true
        featured := body.featured.getD false
        datePublished := body.datePublished.getD today }
    (.created bookToAdd, books ++ [bookToAdd])

/-- Result of `POST /api/reviews`. -/
inductive PostReviewResult where
  | unauthorized
  | missingFields
  | created (r : Review)
deriving Repr, DecidableEq

/-- HTTP status of a `PostReviewResult`. -/
def PostReviewResult.status : PostReviewResult → Nat
  | .unauthorized => 401
  | .missingFields => 400
  | .created _ => 201

/-- Handler of `POST /api/reviews` (src/server.js lines 324-366), composed with
the `authenticateKey` middleware.  `now` is the current instant used for the
`timestamp` field, `uuid` the value of `crypto.randomUUID()`.  Returns the
response and the new content of `reviews.json`. -/
def postReviews (now uuid : String) (key? : Option String) (body : NewReview)
    (reviews : List Review) : PostReviewResult × List Review :=
  if !authOk key? then (.unauthorized, reviews)
  else if !truthyStr body.bookId || !truthyStr body.author ||
      !truthyNum body.rating || !truthyStr body.comment then
    (.missingFields, reviews)
  else
    let reviewToAdd : Review :=
      { id := "review-" ++ uuid
        bookId := body.bookId.getD ""
        author := body.author.getD ""
        rating := body.rating.getD 0
        comment := body.comment.getD ""
        timestamp := now
        verified := body.verified.getD false }
    (.created reviewToAdd, reviews ++ [reviewToAdd])

/-! ### Sample records used by the concrete witnesses -/

/-- A sample stored book. -/
def sampleBook : Book :=
  { id := "1", title := "Genesis", author := "Anon", price := 10, rating := 4,
    reviewCount := 2, inStock := true, featured := false, datePublished := "2020-05-01" }

/-- A second sample stored book. -/
def sampleBook2 : Book :=
  { id := "2", title := "Exodus", author := "Anon", price := 12, rating := 5,
    reviewCount := 3, inStock := true, featured := true, datePublished := "2021-07-15" }

/-- A sample stored review. -/
def sampleReview : Review :=
  { id := "review-abc", bookId := "2", author := "R", rating := 5,
    comment := "great", timestamp := "2024-01-01T00:00:00.000Z", verified := false }

/-- A book-creation body carrying the three required fields. -/
def fullNewBook : NewBook :=
  { title := some "New Title", author := some "New Author", price := some 20,
    rating := none, reviewCount := none, inStock := none, featured := none,
    datePublished := none }

/-- A book-creation body with every field absent. -/
def emptyNewBook : NewBook := ⟨none, none, none, none, none, none, none, none⟩

/-- A review-creation body carrying the four required fields. -/
def fullNewReview : NewReview :=
  { bookId := some "7", author := some "R", rating := some 4,
    comment := some "nice", verified := none }

/-- A review-creation body with every field absent. -/
def emptyNewReview : NewReview := ⟨none, none, none, none, none⟩

/-! ### Helper lemmas -/

theorem self_le_foldl_max : ∀ (as : List Int) (a : Int), a ≤ as.foldl max a := by
  intro as
  induction as with
  | nil => intro a; exact le_refl a
  | cons b bs ih => intro a; exact le_trans (le_max_left a b) (ih (max a b))

theorem mem_le_foldl_max : ∀ (as : List Int) (a x : Int), x ∈ as → x ≤ as.foldl max a := by
  intro as
  induction as with
  | nil => intro a x hx; cases hx
  | cons b bs ih =>
    intro a x hx
    rcases List.mem_cons.mp hx with rfl | hmem
    · exact le_trans (le_max_right a x) (self_le_foldl_max bs (max a x))
    · exact ih (max a b) x hmem

theorem digitChar_isDigit {d : Nat} (h : d < 10) : (Nat.digitChar d).isDigit = true := by
  interval_cases d <;> decide

theorem toNat_digitChar {d : Nat} (h : d < 10) : (Nat.digitChar d).toNat - 48 = d := by
  interval_cases d <;> decide

theorem natToDigits_ne_nil (n : Nat) : natToDigits n ≠ [] := by
  rw [natToDigits]
  split
  · simp
  · simp

theorem natToDigits_all_isDigit (n : Nat) : ∀ c ∈ natToDigits n, c.isDigit = true := by
  induction n using Nat.strong_induction_on with
  | h n ih =>
    rw [natToDigits]
    split
    · next h =>
      intro c hc
      simp only [List.mem_singleton] at hc
      subst hc
      exact digitChar_isDigit h
    · next h =>
      intro c hc
      rcases List.mem_append.mp hc with h1 | h2
      · exact ih (n / 10) (Nat.div_lt_self (by omega) (by omega)) c h1
      · simp only [List.mem_singleton] at h2
        subst h2
        exact digitChar_isDigit (Nat.mod_lt _ (by omega))

theorem foldl_digits_natToDigits (n : Nat) :
    ∀ acc : Nat, (natToDigits n).foldl (fun a c => a * 10 + (c.toNat - 48)) acc =
      acc * 10 ^ (natToDigits n).length + n := by
  induction n using Nat.strong_induction_on with
  | h n ih =>
    intro acc
    rw [natToDigits]
    split
    · next h =>
      simp only [List.foldl_cons, List.foldl_nil, List.length_singleton, pow_one,
        toNat_digitChar h]
    · next h =>
      rw [List.foldl_append, List.length_append,
        ih (n / 10) (Nat.div_lt_self (by omega) (by omega)) acc]
      simp only [List.foldl_cons, List.foldl_nil, List.length_singleton,
        toNat_digitChar (show n % 10 < 10 by omega)]
      calc (acc * 10 ^ (natToDigits (n / 10)).length + n / 10) * 10 + n % 10
          = acc * (10 ^ (natToDigits (n / 10)).length * 10) + (n / 10 * 10 + n % 10) := by
            ring
        _ = acc * 10 ^ ((natToDigits (n / 10)).length + 1) + n := by
            rw [pow_succ, Nat.div_add_mod']

theorem takeWhile_eq_self_of_all {p : Char → Bool} :
    ∀ (l : List Char), (∀ c ∈ l, p c = true) → l.takeWhile p = l := by
  intro l
  induction l with
  | nil => intro _; rfl
  | cons c cs ih =>
    intro h
    rw [List.takeWhile_cons, h c (by simp)]
    simp only [if_true, ih (fun x hx => h x (List.mem_cons_of_mem _ hx))]

theorem parseLeadingDigits_natToDigits (n : Nat) :
    parseLeadingDigits (natToDigits n) = some n := by
  have htake : (natToDigits n).takeWhile Char.isDigit = natToDigits n :=
    takeWhile_eq_self_of_all _ (natToDigits_all_isDigit n)
  obtain ⟨c, cs, hcons⟩ := List.exists_cons_of_ne_nil (natToDigits_ne_nil n)
  rw [parseLeadingDigits, htake, hcons]
  simp only [← hcons, foldl_digits_natToDigits n 0, zero_mul, zero_add]

theorem jsParseInt_mk_cons (c : Char) (cs : List Char) :
    jsParseInt (String.mk (c :: cs)) =
      if c = '-' then (parseLeadingDigits cs).map (fun n => -(n : Int))
      else if c = '+' then (parseLeadingDigits cs).map (fun n => (n : Int))
      else (parseLeadingDigits (c :: cs)).map (fun n => (n : Int)) := rfl

theorem jsParseInt_intToString (i : Int) : jsParseInt (intToString i) = some i := by
  by_cases hneg : i < 0
  · rw [intToString, if_pos hneg, jsParseInt_mk_cons, if_pos rfl,
      parseLeadingDigits_natToDigits]
    show some (-(i.natAbs : Int)) = some i
    congr 1
    omega
  · rw [intToString, if_neg hneg]
    obtain ⟨c, cs, hcons⟩ := List.exists_cons_of_ne_nil (natToDigits_ne_nil i.natAbs)
    have hdig : c.isDigit = true :=
      natToDigits_all_isDigit i.natAbs c (by rw [hcons]; simp)
    have hc1 : c ≠ '-' := by intro h; subst h; exact absurd hdig (by decide)
    have hc2 : c ≠ '+' := by intro h; subst h; exact absurd hdig (by decide)
    rw [hcons, jsParseInt_mk_cons, if_neg hc1, if_neg hc2, ← hcons,
      parseLeadingDigits_natToDigits]
    show some ((i.natAbs : Int)) = some i
    congr 1
    omega

theorem maxParsedId_spec (books : List Book) (hne : books ≠ [])
    (hids : ∀ b ∈ books, (jsParseInt b.id).isSome = true) :
    ∃ m, maxParsedId books = some m ∧
      ∀ b ∈ books, ∀ k : Int, jsParseInt b.id = some k → k ≤ m := by
  have hfm : books.filterMap (fun b => jsParseInt b.id) ≠ [] := by
    obtain ⟨b, bs, rfl⟩ := List.exists_cons_of_ne_nil hne
    obtain ⟨k, hk⟩ := Option.isSome_iff_exists.mp (hids b (by simp))
    intro hnil
    have hmem : k ∈ List.filterMap (fun b => jsParseInt b.id) (b :: bs) :=
      List.mem_filterMap.mpr ⟨b, by simp, hk⟩
    rw [hnil] at hmem
    cases hmem
  obtain ⟨a, as, hcons⟩ := List.exists_cons_of_ne_nil hfm
  refine ⟨as.foldl max a, ?_, ?_⟩
  · rw [maxParsedId, hcons]
  · intro b hb k hk
    have hkmem : k ∈ books.filterMap (fun b => jsParseInt b.id) :=
      List.mem_filterMap.mpr ⟨b, hb, hk⟩
    rw [hcons] at hkmem
    rcases List.mem_cons.mp hkmem with rfl | hmem
    · exact self_le_foldl_max as k
    · exact mem_le_foldl_max as a k hmem

theorem books_any_isNone_false (books : List Book)
    (hids : ∀ b ∈ books, (jsParseInt b.id).isSome = true) :
    (books.any (fun b => (jsParseInt b.id).isNone)) = false := by
  rw [Bool.eq_false_iff]
  intro hany
  obtain ⟨b, hb, hnone⟩ := List.any_eq_true.mp hany
  have hs := hids b hb
  rw [Option.isNone_iff_eq_none] at hnone
  rw [hnone] at hs
  simp at hs

theorem newBookId_eq (books : List Book) {m : Int}
    (hids : ∀ b ∈ books, (jsParseInt b.id).isSome = true)
    (hm : maxParsedId books = some m) :
    newBookId books = intToString (m + 1) := by
  rw [newBookId, hm]
  rw [if_neg ?_]
  rw [books_any_isNone_false books hids]
  simp

theorem newBookId_not_mem (books : List Book) (hne : books ≠ [])
    (hids : ∀ b ∈ books, (jsParseInt b.id).isSome = true) :
    newBookId books ∉ books.map Book.id := by
  obtain ⟨m, hm, hbound⟩ := maxParsedId_spec books hne hids
  rw [newBookId_eq books hids hm]
  intro hmem
  obtain ⟨b, hb, hid⟩ := List.mem_map.mp hmem
  have hparse : jsParseInt b.id = some (m + 1) := by
    rw [hid, jsParseInt_intToString]
  have := hbound b hb (m + 1) hparse
  omega

theorem scoreDesc_trans : ∀ a b c : ScoredBook,
    scoreDesc a b = true → scoreDesc b c = true → scoreDesc a c = true := by
  intro a b c hab hbc
  simp only [scoreDesc, decide_eq_true_eq] at hab hbc ⊢
  exact le_trans hbc hab

theorem scoreDesc_total : ∀ a b : ScoredBook, (scoreDesc a b || scoreDesc b a) = true := by
  intro a b
  rcases le_total a.score b.score with h | h <;> simp [scoreDesc, h]

/-- C3: for every book collection, `GET /api/books/top-rated` returns at most
10 entries, and the entries are sorted in descending order of the score
`rating * reviewCount`. -/
theorem topRated_at_most_ten_sorted (books : List Book) :
    (getTopRatedBooks books).1.length ≤ 10 ∧
    List.Pairwise (fun a b : ScoredBook => b.score ≤ a.score) (getTopRatedBooks books).1 := by
  constructor
  · simp only [getTopRatedBooks]
    rw [List.length_take]
    exact min_le_left _ _
  · have hsorted := List.sorted_mergeSort scoreDesc_trans scoreDesc_total
      (books.map (fun b => { book := b, score := b.rating * b.reviewCount : ScoredBook }))
    have hp : List.Pairwise (fun a b : ScoredBook => b.score ≤ a.score)
        ((books.map (fun b => { book := b, score := b.rating * b.reviewCount : ScoredBook })).mergeSort
          scoreDesc) :=
      hsorted.imp (fun h => by
        simpa only [scoreDesc, decide_eq_true_eq] using h)
    simp only [getTopRatedBooks]
    exact List.Pairwise.sublist (List.take_sublist _ _) hp

/-- C10: every entry returned by `GET /api/books/top-rated` carries a `score`
field equal to `rating * reviewCount` on top of a stored book record, and the
stored collection is left unchanged by the handler. -/
theorem topRated_score_field_no_write (books : List Book) :
    (getTopRatedBooks books).2 = books ∧
    ∀ x ∈ (getTopRatedBooks books).1,
      x.score = x.book.rating * x.book.reviewCount ∧ x.book ∈ books := by
  constructor
  · rfl
  · intro x hx
    simp only [getTopRatedBooks] at hx
    have hx2 : x ∈ (books.map
        (fun b => { book := b, score := b.rating * b.reviewCount : ScoredBook })).mergeSort
        scoreDesc :=
      (List.take_sublist _ _).subset hx
    have hx3 := (List.mergeSort_perm _ scoreDesc).mem_iff.mp hx2
    obtain ⟨b, hb, rfl⟩ := List.mem_map.mp hx3
    exact ⟨rfl, hb⟩

/-- C7: `GET /api/books/:id` returns the book whose `id` is string-equal to the
requested path value, and responds 404 when no book in the collection has that
id. -/
theorem bookById_found_or_404 (id : String) (books : List Book) :
    ((∀ b ∈ books, b.id ≠ id) → (getBookById id books).status = 404) ∧
    ((∃ b ∈ books, b.id = id) →
      ∃ b, getBookById id books = .found b ∧ b.id = id ∧ b ∈ books) := by
  constructor
  · intro h
    have hfind : books.find? (fun b => b.id == id) = none :=
      List.find?_eq_none.mpr (by
        intro b hb
        simp only [beq_iff_eq]
        exact h b hb)
    rw [getBookById, hfind]
    rfl
  · rintro ⟨b0, hb0, hid0⟩
    have hsome : (books.find? (fun b => b.id == id)).isSome = true :=
      List.find?_isSome.mpr ⟨b0, hb0, by simp [hid0]⟩
    obtain ⟨b, hb⟩ := Option.isSome_iff_exists.mp hsome
    refine ⟨b, ?_, ?_, List.mem_of_find?_eq_some hb⟩
    · rw [getBookById, hb]
    · simpa using List.find?_some hb

/-- Witness for C7 at a concrete collection: id "9" is absent (404), id "2"
is found. -/
theorem bookById_found_or_404_witness :
    (getBookById "9" [sampleBook, sampleBook2]).status = 404 ∧
    (∃ b, getBookById "2" [sampleBook, sampleBook2] = .found b ∧ b.id = "2" ∧
      b ∈ [sampleBook, sampleBook2]) :=
  ⟨(bookById_found_or_404 "9" [sampleBook, sampleBook2]).1 (by decide),
   (bookById_found_or_404 "2" [sampleBook, sampleBook2]).2
     ⟨sampleBook2, List.mem_cons_of_mem _ (List.mem_cons_self _ _), rfl⟩⟩

/-- C8: for every `bookId` with no matching reviews, `GET
/api/reviews/book/:bookId` responds 200 with `success`, count 0 and an empty
list. -/
theorem reviewsForBook_none_is_ok (bookId : String) (reviews : List Review)
    (h : ∀ r ∈ reviews, r.bookId ≠ bookId) :
    getReviewsForBook bookId reviews =
      { status := 200, success := true, count := 0, data := [] } := by
  have hfilter : reviews.filter (fun r => r.bookId == bookId) = [] :=
    List.filter_eq_nil_iff.mpr (by
      intro r hr
      simp only [beq_iff_eq]
      exact h r hr)
  simp only [getReviewsForBook, hfilter]
  rfl

/-- Witness for C8: the sample review is for book "2", so book "1" has none. -/
theorem reviewsForBook_none_is_ok_witness :
    getReviewsForBook "1" [sampleReview] =
      { status := 200, success := true, count := 0, data := [] } :=
  reviewsForBook_none_is_ok "1" [sampleReview] (by decide)

theorem authOk_false {key? : Option String} (h : key? ≠ some "amana-secret-key-12345") :
    authOk key? = false := by
  cases key? with
  | none => rfl
  | some k =>
    have hk : k ≠ "amana-secret-key-12345" := fun hkk => h (by rw [hkk])
    simp [authOk, truthyStr, VALID_API_KEYS, hk]

/-- C4: a POST to either endpoint with an absent or mismatched `X-API-Key`
yields 401 and leaves both collections unmodified. -/
theorem post_invalid_key_401_no_write (today now uuid : String) (key? : Option String)
    (bodyB : NewBook) (bodyR : NewReview) (books : List Book) (reviews : List Review)
    (h : key? ≠ some "amana-secret-key-12345") :
    (postBooks today key? bodyB books).1.status = 401 ∧
    (postBooks today key? bodyB books).2 = books ∧
    (postReviews now uuid key? bodyR reviews).1.status = 401 ∧
    (postReviews now uuid key? bodyR reviews).2 = reviews := by
  have ha := authOk_false h
  refine ⟨?_, ?_, ?_, ?_⟩ <;>
    simp [postBooks, postReviews, ha, PostBookResult.status, PostReviewResult.status]

/-- Witness for C4 at concrete inputs with the header absent. -/
theorem post_invalid_key_401_no_write_witness :
    (postBooks "2024-01-01" none emptyNewBook [sampleBook]).1.status = 401 ∧
    (postBooks "2024-01-01" none emptyNewBook [sampleBook]).2 = [sampleBook] ∧
    (postReviews "2024-01-01T00:00:00.000Z" "u1" none emptyNewReview [sampleReview]).1.status = 401 ∧
    (postReviews "2024-01-01T00:00:00.000Z" "u1" none emptyNewReview [sampleReview]).2 = [sampleReview] :=
  post_invalid_key_401_no_write "2024-01-01" "2024-01-01T00:00:00.000Z" "u1" none
    emptyNewBook emptyNewReview [sampleBook] [sampleReview] (by simp)

theorem parseDate_pos {s : String} {t : Nat} (h : parseDate s = some t) : s ≠ "" := by
  intro h0
  have hnone : parseDate "" = none := rfl
  rw [h0, hnone] at h
  cases h

theorem truthyStr_true {o : Option String} (h : truthyStr o = true) :
    ∃ s, o = some s ∧ s ≠ "" := by
  cases o with
  | none => simp [truthyStr] at h
  | some s => exact ⟨s, rfl, by simpa [truthyStr] using h⟩

theorem getBooksByDateRange_missing (start? end? : Option String) (books : List Book)
    (h : truthyStr start? = false ∨ truthyStr end? = false) :
    getBooksByDateRange start? end? books = .missingParams := by
  have hcond : (!truthyStr start? || !truthyStr end?) = true := by
    rcases h with h | h <;> simp [h]
  rw [getBooksByDateRange, if_pos hcond]

theorem getBooksByDateRange_truthy (s1 e1 : String) (books : List Book)
    (hs0 : s1 ≠ "") (he0 : e1 ≠ "") :
    getBooksByDateRange (some s1) (some e1) books =
      match parseDate s1, parseDate e1 with
      | some s, some e =>
        if e < s then .invalidRange
        else .ok (books.filter (publishedInRange s e)).length (s1, e1)
          (books.filter (publishedInRange s e))
      | _, _ => .invalidFormat := by
  have ht1 : truthyStr (some s1) = true := by simp [truthyStr, hs0]
  have ht2 : truthyStr (some e1) = true := by simp [truthyStr, he0]
  have hcond : (!truthyStr (some s1) || !truthyStr (some e1)) = false := by
    simp [ht1, ht2]
  rw [getBooksByDateRange, if_neg (by simp [hcond])]
  rfl

/-- C1: for start and end that both parse as dates with start <= end,
`GET /api/books/date-range` returns exactly the books whose `datePublished`
falls within `[start, end]` inclusive, with their count. -/
theorem dateRange_filters_inclusive (s1 e1 : String) (ps pe : Nat) (books : List Book)
    (hs : parseDate s1 = some ps) (he : parseDate e1 = some pe) (hle : ps ≤ pe) :
    getBooksByDateRange (some s1) (some e1) books =
      DRResult.ok (books.filter (publishedInRange ps pe)).length (s1, e1)
        (books.filter (publishedInRange ps pe)) ∧
    ∀ b : Book, b ∈ books.filter (publishedInRange ps pe) ↔
      (b ∈ books ∧ publishedInRange ps pe b = true) := by
  constructor
  · rw [getBooksByDateRange_truthy s1 e1 books (parseDate_pos hs) (parseDate_pos he),
      hs, he]
    show (if pe < ps then DRResult.invalidRange
      else DRResult.ok (books.filter (publishedInRange ps pe)).length (s1, e1)
        (books.filter (publishedInRange ps pe))) =
      DRResult.ok (books.filter (publishedInRange ps pe)).length (s1, e1)
        (books.filter (publishedInRange ps pe))
    rw [if_neg (show ¬ pe < ps by omega)]
  · intro b
    exact List.mem_filter

/-- Witness for C1: the whole year 2020 contains the sample book published
2020-05-01. -/
theorem dateRange_filters_inclusive_witness :
    getBooksByDateRange (some "2020-01-01") (some "2020-12-31") [sampleBook] =
      DRResult.ok ([sampleBook].filter (publishedInRange 20200101 20201231)).length
        ("2020-01-01", "2020-12-31") ([sampleBook].filter (publishedInRange 20200101 20201231)) ∧
    ∀ b : Book, b ∈ [sampleBook].filter (publishedInRange 20200101 20201231) ↔
      (b ∈ [sampleBook] ∧ publishedInRange 20200101 20201231 b = true) :=
  dateRange_filters_inclusive "2020-01-01" "2020-12-31" 20200101 20201231 [sampleBook]
    (by decide) (by decide) (by omega)

/-- C6: a date-range request with a missing parameter, an unparsable date, or
start after end gets a 400-class response. -/
theorem dateRange_invalid_400 (start? end? : Option String) (books : List Book)
    (h : start? = none ∨ end? = none ∨
      (∃ s, start? = some s ∧ parseDate s = none) ∨
      (∃ e, end? = some e ∧ parseDate e = none) ∨
      (∃ s e ps pe, start? = some s ∧ end? = some e ∧ parseDate s = some ps ∧
        parseDate e = some pe ∧ pe < ps)) :
    (getBooksByDateRange start? end? books).status = 400 := by
  by_cases ht1 : truthyStr start? = true
  case neg =>
    rw [getBooksByDateRange_missing start? end? books
      (Or.inl (Bool.eq_false_iff.mpr ht1))]
    rfl
  by_cases ht2 : truthyStr end? = true
  case neg =>
    rw [getBooksByDateRange_missing start? end? books
      (Or.inr (Bool.eq_false_iff.mpr ht2))]
    rfl
  obtain ⟨s1, rfl, hs0⟩ := truthyStr_true ht1
  obtain ⟨e1, rfl, he0⟩ := truthyStr_true ht2
  rw [getBooksByDateRange_truthy s1 e1 books hs0 he0]
  rcases h with h | h | ⟨s, hss, hsn⟩ | ⟨e, hee, hen⟩ | ⟨s, e, ps, pe, hss, hee, hsp, hep, hlt⟩
  · cases h
  · cases h
  · cases hss
    rw [hsn]
    rcases hq : parseDate e1 with _ | v <;> rfl
  · cases hee
    rw [hen]
    rcases hq : parseDate s1 with _ | v <;> rfl
  · cases hss
    cases hee
    rw [hsp, hep]
    simp only [if_pos hlt]
    rfl

/-- Witness for C6: a request with the start parameter missing. -/
theorem dateRange_invalid_400_witness :
    (getBooksByDateRange none (some "2020-12-31") [sampleBook]).status = 400 :=
  dateRange_invalid_400 none (some "2020-12-31") [sampleBook] (Or.inl rfl)

/-- A book-creation body whose required `price` field is present but 0. -/
def zeroPriceNewBook : NewBook :=
  { title := some "T", author := some "A", price := some 0, rating := none,
    reviewCount := none, inStock := none, featured := none, datePublished := none }

/-- A review-creation body whose required `rating` field is present but 0. -/
def zeroRatingNewReview : NewReview :=
  { bookId := some "1", author := some "R", rating := some 0,
    comment := some "c", verified := none }

theorem authOk_valid : authOk (some "amana-secret-key-12345") = true := by decide

/-- C2: with a valid key, creating a book without title, author or price
yields 400 and no write; with the three required fields present it yields 201
and a fresh id, the string form of max(existing numeric ids) + 1, distinct
from every stored id. -/
theorem postBooks_validation_and_id (today : String) (body : NewBook) (books : List Book) :
    ((body.title = none ∨ body.author = none ∨ body.price = none) →
      (postBooks today (some "amana-secret-key-12345") body books).1.status = 400 ∧
      (postBooks today (some "amana-secret-key-12345") body books).2 = books) ∧
    (truthyStr body.title = true → truthyStr body.author = true →
      truthyNum body.price = true → books ≠ [] →
      (∀ b ∈ books, (jsParseInt b.id).isSome = true) →
      ∃ added m, maxParsedId books = some m ∧
        (postBooks today (some "amana-secret-key-12345") body books).1 =
          PostBookResult.created added ∧
        (postBooks today (some "amana-secret-key-12345") body books).1.status = 201 ∧
        added.id = intToString (m + 1) ∧
        added.id ∉ books.map Book.id ∧
        (postBooks today (some "amana-secret-key-12345") body books).2 = books ++ [added]) := by
  constructor
  · intro hmiss
    have hcond : (!truthyStr body.title || !truthyStr body.author ||
        !truthyNum body.price) = true := by
      rcases hmiss with h | h | h <;> simp [h, truthyStr, truthyNum]
    rw [postBooks, if_neg (by simp [authOk_valid]), if_pos hcond]
    exact ⟨rfl, rfl⟩
  · intro ht ha hp hne hids
    obtain ⟨m, hm, _⟩ := maxParsedId_spec books hne hids
    have hcond : ¬ ((!truthyStr body.title || !truthyStr body.author ||
        !truthyNum body.price) = true) := by
      simp [ht, ha, hp]
    refine ⟨{ id := newBookId books,
              title := body.title.getD "", author := body.author.getD "",
              price := body.price.getD 0, rating := jsNumOr body.rating 0,
              reviewCount := jsNumOr body.reviewCount 0,
              inStock := body.inStock.getD true, featured := body.featured.getD false,
              datePublished := body.datePublished.getD today }, m, hm, ?_, ?_, ?_, ?_, ?_⟩
    · rw [postBooks, if_neg (by simp [authOk_valid]), if_neg hcond]
    · rw [postBooks, if_neg (by simp [authOk_valid]), if_neg hcond]
      rfl
    · exact newBookId_eq books hids hm
    · exact newBookId_not_mem books hne hids
    · rw [postBooks, if_neg (by simp [authOk_valid]), if_neg hcond]

/-- Witness for C2: an empty body is rejected; a complete body over the
two-book collection is created with id "3". -/
theorem postBooks_validation_and_id_witness :
    ((postBooks "2024-06-01" (some "amana-secret-key-12345") emptyNewBook [sampleBook]).1.status = 400 ∧
     (postBooks "2024-06-01" (some "amana-secret-key-12345") emptyNewBook [sampleBook]).2 = [sampleBook]) ∧
    (∃ added m, maxParsedId [sampleBook, sampleBook2] = some m ∧
      (postBooks "2024-06-01" (some "amana-secret-key-12345") fullNewBook
        [sampleBook, sampleBook2]).1 = PostBookResult.created added ∧
      (postBooks "2024-06-01" (some "amana-secret-key-12345") fullNewBook
        [sampleBook, sampleBook2]).1.status = 201 ∧
      added.id = intToString (m + 1) ∧
      added.id ∉ [sampleBook, sampleBook2].map Book.id ∧
      (postBooks "2024-06-01" (some "amana-secret-key-12345") fullNewBook
        [sampleBook, sampleBook2]).2 = [sampleBook, sampleBook2] ++ [added]) :=
  ⟨(postBooks_validation_and_id "2024-06-01" emptyNewBook [sampleBook]).1 (Or.inl rfl),
   (postBooks_validation_and_id "2024-06-01" fullNewBook [sampleBook, sampleBook2]).2
     (by decide) (by decide) (by decide) (by simp) (by decide)⟩

/-- C5: with a valid key, creating a review without bookId, author, rating or
comment yields 400; with all four present it yields 201 with id
`review-<uuid>`, creation timestamp, `verified` defaulting to false, even for
a `bookId` matching no stored book. -/
theorem postReviews_validation_and_create (now uuid : String) (body : NewReview)
    (reviews : List Review) :
    ((body.bookId = none ∨ body.author = none ∨ body.rating = none ∨ body.comment = none) →
      (postReviews now uuid (some "amana-secret-key-12345") body reviews).1.status = 400 ∧
      (postReviews now uuid (some "amana-secret-key-12345") body reviews).2 = reviews) ∧
    (truthyStr body.bookId = true → truthyStr body.author = true →
      truthyNum body.rating = true → truthyStr body.comment = true →
      ∀ books : List Book, (∀ b ∈ books, b.id ≠ body.bookId.getD "") →
      ∃ r, (postReviews now uuid (some "amana-secret-key-12345") body reviews).1 =
          PostReviewResult.created r ∧
        (postReviews now uuid (some "amana-secret-key-12345") body reviews).1.status = 201 ∧
        r.id = "review-" ++ uuid ∧ r.timestamp = now ∧
        r.verified = body.verified.getD false ∧
        (postReviews now uuid (some "amana-secret-key-12345") body reviews).2 =
          reviews ++ [r]) := by
  constructor
  · intro hmiss
    have hcond : (!truthyStr body.bookId || !truthyStr body.author ||
        !truthyNum body.rating || !truthyStr body.comment) = true := by
      rcases hmiss with h | h | h | h <;> simp [h, truthyStr, truthyNum]
    rw [postReviews, if_neg (by simp [authOk_valid]), if_pos hcond]
    exact ⟨rfl, rfl⟩
  · intro hb ha hr hc books _
    have hcond : ¬ ((!truthyStr body.bookId || !truthyStr body.author ||
        !truthyNum body.rating || !truthyStr body.comment) = true) := by
      simp [hb, ha, hr, hc]
    refine ⟨{ id := "review-" ++ uuid, bookId := body.bookId.getD "",
              author := body.author.getD "", rating := body.rating.getD 0,
              comment := body.comment.getD "", timestamp := now,
              verified := body.verified.getD false }, ?_, ?_, rfl, rfl, rfl, ?_⟩
    · rw [postReviews, if_neg (by simp [authOk_valid]), if_neg hcond]
    · rw [postReviews, if_neg (by simp [authOk_valid]), if_neg hcond]
      rfl
    · rw [postReviews, if_neg (by simp [authOk_valid]), if_neg hcond]

/-- Witness for C5: an empty body is rejected; a complete body with bookId "7"
(matching neither stored book) is created. -/
theorem postReviews_validation_and_create_witness :
    ((postReviews "2024-06-01T00:00:00.000Z" "u1" (some "amana-secret-key-12345")
        emptyNewReview [sampleReview]).1.status = 400 ∧
     (postReviews "2024-06-01T00:00:00.000Z" "u1" (some "amana-secret-key-12345")
        emptyNewReview [sampleReview]).2 = [sampleReview]) ∧
    (∃ r, (postReviews "2024-06-01T00:00:00.000Z" "u1" (some "amana-secret-key-12345")
          fullNewReview [sampleReview]).1 = PostReviewResult.created r ∧
      (postReviews "2024-06-01T00:00:00.000Z" "u1" (some "amana-secret-key-12345")
          fullNewReview [sampleReview]).1.status = 201 ∧
      r.id = "review-" ++ "u1" ∧ r.timestamp = "2024-06-01T00:00:00.000Z" ∧
      r.verified = fullNewReview.verified.getD false ∧
      (postReviews "2024-06-01T00:00:00.000Z" "u1" (some "amana-secret-key-12345")
          fullNewReview [sampleReview]).2 = [sampleReview] ++ [r]) :=
  ⟨(postReviews_validation_and_create "2024-06-01T00:00:00.000Z" "u1" emptyNewReview
      [sampleReview]).1 (Or.inl rfl),
   (postReviews_validation_and_create "2024-06-01T00:00:00.000Z" "u1" fullNewReview
      [sampleReview]).2 (by decide) (by decide) (by decide) (by decide)
      [sampleBook, sampleBook2] (by decide)⟩

/-- C9: the required-field checks test truthiness, so a present-but-falsy
required field (empty-string title or author, price 0 for a book; empty-string
bookId, author or comment, rating 0 for a review) is rejected with the 400
missing-required-fields response and no write. -/
theorem falsy_required_fields_rejected (today now uuid : String) (bodyB : NewBook)
    (bodyR : NewReview) (books : List Book) (reviews : List Review) :
    ((bodyB.title = some "" ∨ bodyB.author = some "" ∨ bodyB.price = some 0) →
      (postBooks today (some "amana-secret-key-12345") bodyB books).1 =
        PostBookResult.missingFields ∧
      (postBooks today (some "amana-secret-key-12345") bodyB books).1.status = 400 ∧
      (postBooks today (some "amana-secret-key-12345") bodyB books).2 = books) ∧
    ((bodyR.bookId = some "" ∨ bodyR.author = some "" ∨ bodyR.rating = some 0 ∨
        bodyR.comment = some "") →
      (postReviews now uuid (some "amana-secret-key-12345") bodyR reviews).1 =
        PostReviewResult.missingFields ∧
      (postReviews now uuid (some "amana-secret-key-12345") bodyR reviews).1.status = 400 ∧
      (postReviews now uuid (some "amana-secret-key-12345") bodyR reviews).2 = reviews) := by
  constructor
  · intro hf
    have hcond : (!truthyStr bodyB.title || !truthyStr bodyB.author ||
        !truthyNum bodyB.price) = true := by
      rcases hf with h | h | h <;> simp [h, truthyStr, truthyNum]
    rw [postBooks, if_neg (by simp [authOk_valid]), if_pos hcond]
    exact ⟨rfl, rfl, rfl⟩
  · intro hf
    have hcond : (!truthyStr bodyR.bookId || !truthyStr bodyR.author ||
        !truthyNum bodyR.rating || !truthyStr bodyR.comment) = true := by
      rcases hf with h | h | h | h <;> simp [h, truthyStr, truthyNum]
    rw [postReviews, if_neg (by simp [authOk_valid]), if_pos hcond]
    exact ⟨rfl, rfl, rfl⟩

/-- Witness for C9: price 0 and rating 0 bodies are rejected with 400 and no
write. -/
theorem falsy_required_fields_rejected_witness :
    ((postBooks "2024-06-01" (some "amana-secret-key-12345") zeroPriceNewBook [sampleBook]).1 =
        PostBookResult.missingFields ∧
     (postBooks "2024-06-01" (some "amana-secret-key-12345") zeroPriceNewBook [sampleBook]).1.status = 400 ∧
     (postBooks "2024-06-01" (some "amana-secret-key-12345") zeroPriceNewBook [sampleBook]).2 = [sampleBook]) ∧
    ((postReviews "2024-06-01T00:00:00.000Z" "u1" (some "amana-secret-key-12345")
        zeroRatingNewReview [sampleReview]).1 = PostReviewResult.missingFields ∧
     (postReviews "2024-06-01T00:00:00.000Z" "u1" (some "amana-secret-key-12345")
        zeroRatingNewReview [sampleReview]).1.status = 400 ∧
     (postReviews "2024-06-01T00:00:00.000Z" "u1" (some "amana-secret-key-12345")
        zeroRatingNewReview [sampleReview]).2 = [sampleReview]) :=
  ⟨(falsy_required_fields_rejected "2024-06-01" "2024-06-01T00:00:00.000Z" "u1"
      zeroPriceNewBook zeroRatingNewReview [sampleBook] [sampleReview]).1 (by decide),
   (falsy_required_fields_rejected "2024-06-01" "2024-06-01T00:00:00.000Z" "u1"
      zeroPriceNewBook zeroRatingNewReview [sampleBook] [sampleReview]).2 (by decide)⟩
